import Mathlib

/-!
Verification of the disaster-data collection pipeline in
`google_adk/5_disaster_data_agent/agent.py` and of the local Python
execution tool in
`google_adk/mcp_apwrims_agent_with_code_execution/python_exec_tool.py`.

The Python functions are shallowly embedded: pure dict-shaping logic is
translated to Lean functions over structures whose `Option` fields model
optional dict keys, and every external collaborator (the DuckDuckGo
search provider, the Crawl4AI client, `urllib.parse`, `json.loads`,
`textwrap.dedent`, the Python `exec` primitive) is a function parameter,
so each theorem quantifies over all behaviours of the external world.
A Python exception propagating out of a function is modelled by
`Except.error`; a returned dict is modelled by `Except.ok` (or by a bare
structure when the function can never raise).
-/

/-! ## US1.1 Seed-query web search (`search_web_for_disaster_data`) -/

/-- One raw result from the external DuckDuckGo provider: the `href`,
`title` and `body` fields read by the agent (agent.py lines 164-167). -/
structure RawResult where
  href : String
  title : String
  body : String
  deriving Repr, DecidableEq

/-- One discovered-URL record as assembled at agent.py lines 179-187. -/
structure SearchResult where
  url : String
  title : String
  domain : String
  snippet : String
  query : String
  relevance_score : Nat
  timestamp : String
  deriving Repr, DecidableEq

/-- Result dict of `search_web_for_disaster_data`.  `none` in an `Option`
field models the key being absent from the returned Python dict; the
error-shaped dicts of the source carry only `status` and `error_message`,
and their remaining fields are defaulted here. -/
structure SearchOutput where
  status : String
  timestamp : String
  disaster_type : String
  discovered_urls : List SearchResult
  total_count : Nat
  note : Option String
  error_message : Option String
  deriving Repr, DecidableEq

/-- `SEED_QUERIES` dict (agent.py lines 25-56), in insertion order. -/
def SEED_QUERIES : List (String × List String) :=
  [("floods",
    ["India floods latest news", "India flood disaster updates",
     "India monsoon flooding", "India flood affected areas"]),
   ("droughts",
    ["India drought conditions", "India water scarcity news",
     "India drought affected regions", "India rainfall deficit"]),
   ("cyclones",
    ["India cyclone latest update", "India tropical cyclone warning",
     "India Bay of Bengal cyclone", "India Arabian Sea cyclone"]),
   ("earthquakes",
    ["India earthquake latest news", "India seismic activity",
     "India earthquake tremors", "India earthquake affected areas"]),
   ("landslides",
    ["India landslide news", "India hill slope failure",
     "India landslide disaster", "India monsoon landslides"])]

/-- The fixed keyword set of the relevance heuristic (agent.py line 174). -/
def relevanceKeywords : List String :=
  ["disaster", "india", "alert", "warning", "emergency", "relief"]

/-- Does `hay` start with `needle`?  (Helper for substring containment.) -/
def charsStartWith : List Char → List Char → Bool
  | [], _ => true
  | _ :: _, [] => false
  | a :: as, b :: bs => a == b && charsStartWith as bs

/-- Substring containment on character lists: Python `needle in hay`. -/
def containsSub (needle : List Char) : List Char → Bool
  | [] => needle.isEmpty
  | c :: cs => charsStartWith needle (c :: cs) || containsSub needle cs

/-- Python character slicing `s[:n]` (by code points, as in Python). -/
def pyTake (s : String) (n : Nat) : String :=
  String.mk (s.toList.take n)

/-- Python `s.lower()` viewed as a character list. -/
def lowerChars (s : String) : List Char :=
  s.toList.map Char.toLower

/-- The relevance heuristic of agent.py lines 172-177: the number of the six
fixed keywords occurring case-insensitively in the title or the body. -/
def relevance_score_of (title body : String) : Nat :=
  relevanceKeywords.countP fun k =>
    containsSub (lowerChars k) (lowerChars title) ||
    containsSub (lowerChars k) (lowerChars body)

/-- One record of the `mock_urls` literal (agent.py lines 82-110). -/
def mkMockUrl (url title domain snippet query : String) (score : Nat)
    (now : String) : SearchResult :=
  { url := url, title := title, domain := domain, snippet := snippet,
    query := query, relevance_score := score, timestamp := now }

/-- The `mock_urls` list literal of agent.py lines 82-110, with hard-coded
relevance scores 9, 8, 7. -/
def mockUrls (disaster_type now : String) : List SearchResult :=
  [mkMockUrl "https://www.ndma.gov.in/disaster-management/floods"
     "India Floods: NDMA Emergency Response and Relief Operations"
     "ndma.gov.in"
     "The National Disaster Management Authority (NDMA) has issued flood warnings for multiple states. Emergency relief operations are underway in Kerala, Maharashtra, and West Bengal."
     ("India " ++ disaster_type ++ " latest news") 9 now,
   mkMockUrl "https://www.thehindu.com/news/national/floods-india-2024"
     "Major Flooding Reported Across India: Thousands Displaced"
     "thehindu.com"
     "Heavy monsoon rains have caused severe flooding in India with thousands evacuated. Disaster management teams are on alert across multiple states."
     ("India " ++ disaster_type ++ " disaster updates") 8 now,
   mkMockUrl "https://www.imd.gov.in/weather-warnings"
     "India Meteorological Department: Severe Weather Alert"
     "imd.gov.in"
     "IMD issues red alert for cyclone warning in Bay of Bengal. Coastal areas of Odisha and Andhra Pradesh on high alert. Emergency preparedness measures activated."
     ("India " ++ disaster_type ++ " affected areas") 7 now]

/-- Query selection of agent.py lines 136-147: all seed queries for
`"all"`, the list of that category for a known category, `none` otherwise. -/
def selectQueries (disaster_type : String) : Option (List String) :=
  if disaster_type == "all" then
    some (SEED_QUERIES.map Prod.snd).flatten
  else
    match SEED_QUERIES.find? (fun p => p.1 == disaster_type) with
    | some p => some p.2
    | none => none

/-- The error message of agent.py line 146 for an unknown disaster type. -/
def unknownTypeMsg (disaster_type : String) : String :=
  "Unknown disaster type: " ++ disaster_type ++
    ". Valid types: [\u0027floods\u0027, \u0027droughts\u0027, \u0027cyclones\u0027, \u0027earthquakes\u0027, \u0027landslides\u0027, \u0027all\u0027]"

/-- An error-shaped search dict (only `status` and `error_message` keys in
the Python source; other fields defaulted in this embedding). -/
def searchError (msg : String) : SearchOutput :=
  { status := "error", timestamp := "", disaster_type := "",
    discovered_urls := [], total_count := 0, note := none,
    error_message := some msg }

/-- Building one discovered-URL record (agent.py lines 164-187): the domain
comes from the external `urlparse(url).netloc`, the snippet is the body
truncated to 200 characters, the relevance is scored on the full body. -/
def mkSearchResult (netloc : String → String) (now query : String)
    (r : RawResult) : SearchResult :=
  { url := r.href, title := r.title, domain := netloc r.href,
    snippet := pyTake r.body 200, query := query,
    relevance_score := relevance_score_of r.title r.body,
    timestamp := now }

/-- The search loop of agent.py lines 160-192: per query, a raised provider
exception (`none`) is logged and skipped; otherwise each raw result is
turned into a record and appended. -/
def searchLoop (netloc : String → String)
    (provider : String → Nat → Option (List RawResult))
    (now : String) (max_results : Nat) : List String → List SearchResult
  | [] => []
  | q :: qs =>
    (match provider q max_results with
     | none => []
     | some rs => rs.map (mkSearchResult netloc now q)) ++
    searchLoop netloc provider now max_results qs

/-- Insert into a descending-sorted list, after all entries of greater or
equal score (the stable placement of the Python sort). -/
def insertDesc (x : SearchResult) : List SearchResult → List SearchResult
  | [] => [x]
  | y :: ys =>
    if y.relevance_score < x.relevance_score then x :: y :: ys
    else y :: insertDesc x ys

/-- The stable Python `list.sort(key=relevance_score, reverse=True)`
(agent.py line 195) as an insertion sort. -/
def sortByScoreDesc (l : List SearchResult) : List SearchResult :=
  l.foldl (fun acc x => insertDesc x acc) []

/-- `search_web_for_disaster_data` (agent.py lines 59-200).  External
collaborators are parameters: `netloc` is `urlparse(.).netloc`;
`ddgsAvailable` is whether `from ddgs import DDGS` succeeds (line 120);
`ddgsInit` is the `DDGS()` construction of line 153, `Except.error e`
modelling a raised exception with message `e`; `provider q n` is
`list(ddgs.text(q, max_results=n))`, `none` modelling a raised exception.
`now` stands for `datetime.datetime.now().isoformat()`. -/
def search_web_for_disaster_data (netloc : String → String)
    (ddgsAvailable : Bool)
    (ddgsInit : Except String (String → Nat → Option (List RawResult)))
    (now : String)
    (disaster_type : String) (max_results : Nat) (use_mock : Bool) :
    SearchOutput :=
  if use_mock then
    { status := "success", timestamp := now, disaster_type := disaster_type,
      discovered_urls := (mockUrls disaster_type now).take max_results,
      total_count := ((mockUrls disaster_type now).take max_results).length,
      note := some "Using mock data (network unavailable)",
      error_message := none }
  else if !ddgsAvailable then
    searchError "ddgs not installed. Install with: pip install ddgs"
  else
    match selectQueries disaster_type with
    | none => searchError (unknownTypeMsg disaster_type)
    | some queries =>
      match ddgsInit with
      | Except.error e =>
        searchError ("Failed to initialize DDGS: " ++ e ++ ". Network or SSL issue.")
      | Except.ok provider =>
        let discovered :=
          sortByScoreDesc (searchLoop netloc provider now max_results queries)
        { status := "success", timestamp := now,
          disaster_type := disaster_type,
          discovered_urls := discovered,
          total_count := discovered.length,
          note := none, error_message := none }

/-! ## Lemmas about the search stage -/

/-- Membership in an insertion step. -/
theorem mem_insertDesc {y x : SearchResult} {l : List SearchResult} :
    y ∈ insertDesc x l ↔ y = x ∨ y ∈ l := by
  induction l with
  | nil => simp [insertDesc]
  | cons z zs ih =>
    rw [insertDesc]
    by_cases hc : z.relevance_score < x.relevance_score
    · rw [if_pos hc]
      simp [List.mem_cons]
    · rw [if_neg hc]
      simp [List.mem_cons, ih]
      tauto

/-- Inserting preserves descending sortedness. -/
theorem pairwise_insertDesc {x : SearchResult} {l : List SearchResult}
    (h : l.Pairwise (fun a b => b.relevance_score ≤ a.relevance_score)) :
    (insertDesc x l).Pairwise (fun a b => b.relevance_score ≤ a.relevance_score) := by
  induction l with
  | nil => simp [insertDesc]
  | cons z zs ih =>
    rw [List.pairwise_cons] at h
    rw [insertDesc]
    by_cases hc : z.relevance_score < x.relevance_score
    · rw [if_pos hc]
      refine List.Pairwise.cons ?_ (List.Pairwise.cons h.1 h.2)
      intro w hw
      rcases List.mem_cons.mp hw with rfl | hw
      · exact Nat.le_of_lt hc
      · exact Nat.le_trans (h.1 w hw) (Nat.le_of_lt hc)
    · rw [if_neg hc]
      refine List.Pairwise.cons ?_ (ih h.2)
      intro w hw
      rcases mem_insertDesc.mp hw with rfl | hw
      · exact Nat.le_of_not_lt hc
      · exact h.1 w hw

/-- The fold underlying `sortByScoreDesc` preserves descending sortedness. -/
theorem pairwise_foldl_insertDesc (l : List SearchResult) :
    ∀ acc : List SearchResult,
      acc.Pairwise (fun a b => b.relevance_score ≤ a.relevance_score) →
      (l.foldl (fun a x => insertDesc x a) acc).Pairwise
        (fun a b => b.relevance_score ≤ a.relevance_score) := by
  induction l with
  | nil => intro acc h; simpa using h
  | cons x xs ih => intro acc h; exact ih _ (pairwise_insertDesc h)

/-- The sort of agent.py line 195 yields a descending-sorted list. -/
theorem sortByScoreDesc_pairwise (l : List SearchResult) :
    (sortByScoreDesc l).Pairwise (fun a b => b.relevance_score ≤ a.relevance_score) :=
  pairwise_foldl_insertDesc l [] (by simp)

/-- Elements of the sort fold come from the accumulator or the input. -/
theorem mem_foldl_insertDesc {y : SearchResult} (l : List SearchResult) :
    ∀ acc : List SearchResult,
      y ∈ l.foldl (fun a x => insertDesc x a) acc → y ∈ acc ∨ y ∈ l := by
  induction l with
  | nil => intro acc h; exact Or.inl h
  | cons x xs ih =>
    intro acc h
    rcases ih _ h with h2 | h2
    · rcases mem_insertDesc.mp h2 with rfl | h2
      · exact Or.inr (List.mem_cons_self _ _)
      · exact Or.inl h2
    · exact Or.inr (List.mem_cons_of_mem _ h2)

/-- Sorting creates no new elements. -/
theorem mem_sortByScoreDesc {y : SearchResult} {l : List SearchResult}
    (h : y ∈ sortByScoreDesc l) : y ∈ l := by
  rcases mem_foldl_insertDesc l [] h with h2 | h2
  · exact absurd h2 (List.not_mem_nil _)
  · exact h2

/-- Every record produced by the search loop was built by `mkSearchResult`
from some query and some raw provider result. -/
theorem searchLoop_elem {netloc : String → String}
    {provider : String → Nat → Option (List RawResult)}
    {now : String} {max_results : Nat} {qs : List String} {r : SearchResult}
    (h : r ∈ searchLoop netloc provider now max_results qs) :
    ∃ q raw, r = mkSearchResult netloc now q raw := by
  induction qs with
  | nil => exact absurd h (List.not_mem_nil _)
  | cons q qs ih =>
    rw [searchLoop] at h
    rcases List.mem_append.mp h with h2 | h2
    · cases hp : provider q max_results with
      | none => rw [hp] at h2; exact absurd h2 (List.not_mem_nil _)
      | some rs =>
        rw [hp] at h2
        rcases List.mem_map.mp h2 with ⟨raw, _, rfl⟩
        exact ⟨q, raw, rfl⟩
    · exact ih h2

/-- The relevance heuristic counts over a six-element keyword list. -/
theorem relevance_score_of_le_six (t b : String) : relevance_score_of t b ≤ 6 :=
  List.countP_le_length _

set_option maxRecDepth 8000 in
set_option maxHeartbeats 1000000 in
/-- C1 (amended): for every invocation of `search_web_for_disaster_data`
with `use_mock=False` that returns `status="success"`, the discovered-URL
list is sorted by `relevance_score` descending, and each relevance score
is the number of the six fixed keywords occurring case-insensitively in
the title or the full provider body -- of which the stored snippet is the
first 200 characters -- hence lies between 0 and 6.  (The original claim,
quantifying over all invocations and counting over the stored snippet,
fails: see the counterexample.) -/
theorem C1_search_sorted_and_scored
    (netloc : String → String) (avail : Bool)
    (ddgsInit : Except String (String → Nat → Option (List RawResult)))
    (now disaster_type : String) (max_results : Nat) (out : SearchOutput)
    (hout : out = search_web_for_disaster_data netloc avail ddgsInit now
      disaster_type max_results false)
    (hs : out.status = "success") :
    out.discovered_urls.Pairwise
      (fun a b => b.relevance_score ≤ a.relevance_score) ∧
    ∀ r ∈ out.discovered_urls,
      r.relevance_score ≤ 6 ∧
      ∃ body : String, r.snippet = pyTake body 200 ∧
        r.relevance_score = relevance_score_of r.title body := by
  subst hout
  cases avail with
  | false =>
    have he : (search_web_for_disaster_data netloc false ddgsInit now
        disaster_type max_results false).status = "error" := by
      simp [search_web_for_disaster_data, searchError]
    rw [he] at hs
    exact absurd hs (by decide)
  | true =>
    rcases ddgsInit with e | provider
    · cases hq : selectQueries disaster_type with
      | none =>
        have he : (search_web_for_disaster_data netloc true (Except.error e)
            now disaster_type max_results false).status = "error" := by
          simp [search_web_for_disaster_data, searchError, hq]
        rw [he] at hs
        exact absurd hs (by decide)
      | some queries =>
        have he : (search_web_for_disaster_data netloc true (Except.error e)
            now disaster_type max_results false).status = "error" := by
          simp [search_web_for_disaster_data, searchError, hq]
        rw [he] at hs
        exact absurd hs (by decide)
    · cases hq : selectQueries disaster_type with
      | none =>
        have he : (search_web_for_disaster_data netloc true (Except.ok provider)
            now disaster_type max_results false).status = "error" := by
          simp [search_web_for_disaster_data, searchError, hq]
        rw [he] at hs
        exact absurd hs (by decide)
      | some queries =>
        have hout2 : (search_web_for_disaster_data netloc true (Except.ok provider)
            now disaster_type max_results false).discovered_urls =
            sortByScoreDesc (searchLoop netloc provider now max_results queries) := by
          simp [search_web_for_disaster_data, hq]
        rw [hout2]
        refine ⟨sortByScoreDesc_pairwise _, ?_⟩
        intro r hr
        obtain ⟨q, raw, rfl⟩ := searchLoop_elem (mem_sortByScoreDesc hr)
        exact ⟨relevance_score_of_le_six _ _, raw.body, rfl, rfl⟩

set_option maxRecDepth 8000 in
set_option maxHeartbeats 1000000 in
/-- C1 witness: the amended theorem applied to a concrete provider that
returns one raw result for every query. -/
theorem C1_search_sorted_and_scored_witness :
    (search_web_for_disaster_data (fun _ => "") true
        (Except.ok fun _ _ => some [⟨"http://a", "India alert", "disaster relief"⟩])
        "t0" "floods" 5 false).discovered_urls.Pairwise
      (fun a b => b.relevance_score ≤ a.relevance_score) ∧
    ∀ r ∈ (search_web_for_disaster_data (fun _ => "") true
        (Except.ok fun _ _ => some [⟨"http://a", "India alert", "disaster relief"⟩])
        "t0" "floods" 5 false).discovered_urls,
      r.relevance_score ≤ 6 ∧
      ∃ body : String, r.snippet = pyTake body 200 ∧
        r.relevance_score = relevance_score_of r.title body :=
  C1_search_sorted_and_scored (fun _ => "") true
    (Except.ok fun _ _ => some [⟨"http://a", "India alert", "disaster relief"⟩])
    "t0" "floods" 5 _ rfl (by decide)

set_option maxRecDepth 8000 in
set_option maxHeartbeats 1000000 in
/-- C1 counterexample: (i) with `use_mock=True` the function returns
`status="success"` with the hard-coded scores 9, 8, 7, which exceed 6 and
do not equal the keyword counts over title and snippet; (ii) even with
`use_mock=False`, a provider body longer than 200 characters whose only
keyword lies beyond the truncation point gives a record whose score (1)
differs from the keyword count over its stored title and snippet (0). -/
theorem C1_counterexample :
    (let out := search_web_for_disaster_data (fun _ => "") true
        (Except.ok fun _ _ => some []) "t0" "floods" 5 true
     out.status = "success" ∧
     out.discovered_urls.map (fun r => r.relevance_score) = [9, 8, 7] ∧
     out.discovered_urls.all (fun r => decide (r.relevance_score ≤ 6)) = false ∧
     out.discovered_urls.map
       (fun r => relevance_score_of r.title r.snippet) = [5, 3, 4]) ∧
    (let out2 := search_web_for_disaster_data (fun _ => "") true
        (Except.ok fun _ _ => some
          [⟨"http://b", "", String.mk (List.replicate 200 'x') ++ "disaster"⟩])
        "t0" "floods" 1 false
     out2.status = "success" ∧
     out2.discovered_urls.map
       (fun r => (r.relevance_score, relevance_score_of r.title r.snippet)) =
       [(1, 0), (1, 0), (1, 0), (1, 0)]) := by
  constructor
  · exact ⟨rfl, by decide, by decide, by decide⟩
  · exact ⟨rfl, by decide⟩

/-- C2 (amended): for every disaster type other than `"all"` and the five
enumerated categories, `search_web_for_disaster_data` with
`use_mock=False` and the `ddgs` library importable returns
`status="error"` with the message of agent.py line 146, which names the
invalid category; this holds for every `max_results` and every provider
behaviour.  (The original claim also ranged over `use_mock=True`, where
the function instead returns the mock success payload: see the
counterexample.  With the library missing, the error names the library
instead.) -/
theorem C2_unknown_type_error
    (netloc : String → String)
    (ddgsInit : Except String (String → Nat → Option (List RawResult)))
    (now disaster_type : String) (max_results : Nat)
    (h1 : disaster_type ≠ "all") (h2 : disaster_type ≠ "floods")
    (h3 : disaster_type ≠ "droughts") (h4 : disaster_type ≠ "cyclones")
    (h5 : disaster_type ≠ "earthquakes") (h6 : disaster_type ≠ "landslides") :
    search_web_for_disaster_data netloc true ddgsInit now disaster_type
      max_results false = searchError (unknownTypeMsg disaster_type) := by
  have hq : selectQueries disaster_type = none := by
    rw [selectQueries, if_neg]
    · rw [SEED_QUERIES]
      rw [List.find?]
      rw [show (("floods", ["India floods latest news", "India flood disaster updates",
        "India monsoon flooding", "India flood affected areas"]).1 == disaster_type) = false
        from beq_eq_false_iff_ne.mpr (Ne.symm h2)]
      rw [List.find?]
      rw [show (("droughts", ["India drought conditions", "India water scarcity news",
        "India drought affected regions", "India rainfall deficit"]).1 == disaster_type) = false
        from beq_eq_false_iff_ne.mpr (Ne.symm h3)]
      rw [List.find?]
      rw [show (("cyclones", ["India cyclone latest update", "India tropical cyclone warning",
        "India Bay of Bengal cyclone", "India Arabian Sea cyclone"]).1 == disaster_type) = false
        from beq_eq_false_iff_ne.mpr (Ne.symm h4)]
      rw [List.find?]
      rw [show (("earthquakes", ["India earthquake latest news", "India seismic activity",
        "India earthquake tremors", "India earthquake affected areas"]).1 == disaster_type) = false
        from beq_eq_false_iff_ne.mpr (Ne.symm h5)]
      rw [List.find?]
      rw [show (("landslides", ["India landslide news", "India hill slope failure",
        "India landslide disaster", "India monsoon landslides"]).1 == disaster_type) = false
        from beq_eq_false_iff_ne.mpr (Ne.symm h6)]
      rfl
    · exact fun hb => h1 (eq_of_beq hb)
  simp [search_web_for_disaster_data, hq]

/-- C2 witness: the amended theorem applied to the invalid category
`"volcano"`. -/
theorem C2_unknown_type_error_witness :
    search_web_for_disaster_data (fun _ => "") true
        (Except.ok fun _ _ => none) "t0" "volcano" 5 false =
      searchError (unknownTypeMsg "volcano") :=
  C2_unknown_type_error (fun _ => "") (Except.ok fun _ _ => none) "t0"
    "volcano" 5 (by decide) (by decide) (by decide) (by decide) (by decide)
    (by decide)

/-- C2 counterexample: with `use_mock=True` the invalid category
`"volcano"` does not produce `status="error"`; the function returns the
mock success payload instead, so the claim fails for that combination of
the other arguments. -/
theorem C2_counterexample :
    (search_web_for_disaster_data (fun _ => "") true
        (Except.ok fun _ _ => none) "t0" "volcano" 5 true).status =
      "success" := by
  decide

/-! ## Kafka packet generation (`generate_kafka_packets`)

The packet builder consumes JSON strings.  `json.loads` composed with the
total `.get(key, default)` reads of the source is modelled by a
`loads... : String → Option T` parameter into a typed view `T` whose
fields are exactly the keys the source reads, with the `.get` defaults
for missing keys; `none` models a raised `json.JSONDecodeError`. -/

/-- One discovered-URL dict as read by the packet builder (agent.py lines
505-535): the fields accessed via `.get`, with their defaults. -/
structure UrlData where
  url : String
  domain : String
  title : String
  timestamp : String
  query : String
  snippet : String
  relevance_score : Int
  deriving Repr, DecidableEq

/-- The search-results dict as read by the packet builder (agent.py lines
503 and 520). -/
structure SearchData where
  disaster_type : String
  discovered_urls : List UrlData
  deriving Repr, DecidableEq

/-- One crawl record as read by the packet builder (agent.py lines
541-545): `url`, `status`, `content_size_bytes`, `crawl_timestamp`. -/
structure CrawlRecord where
  url : String
  status : String
  content_size_bytes : Int
  crawl_timestamp : String
  deriving Repr, DecidableEq

/-- The crawl-results dict as read by the packet builder (agent.py line
540).  A Python-falsy `crawl_data` (absent input or empty dict) is
modelled by `none` at the use site; an empty `crawled_data` list behaves
identically. -/
structure CrawlData where
  crawled_data : List CrawlRecord
  deriving Repr, DecidableEq

/-- One extracted table (agent.py lines 389-414). -/
structure TableData where
  table_id : Nat
  caption : String
  headers : List String
  rows : List (List String)
  deriving Repr, DecidableEq

/-- The `structured_data` dict of `extract_structured_data` (agent.py
lines 350-357).  Headings are (level, text) pairs and lists are
(tag-name, items) pairs. -/
structure StructuredData where
  title : String
  headings : List (String × String)
  paragraphs : List String
  tables : List TableData
  lists : List (String × List String)
  metadata : List (String × String)
  deriving Repr, DecidableEq

/-- The `disaster_entities` dict of `extract_structured_data` (agent.py
lines 358-363). -/
structure DisasterEntities where
  dates : List String
  locations : List String
  event_names : List String
  casualties : List String
  deriving Repr, DecidableEq

/-- The extraction-results dict as read by the packet builder (agent.py
lines 548-551). -/
structure ExtractionData where
  status : String
  structured_data : StructuredData
  disaster_entities : DisasterEntities
  deriving Repr, DecidableEq

/-- The `source` sub-dict of a packet (agent.py lines 513-518). -/
structure PacketSource where
  url : String
  domain : String
  title : String
  discovery_timestamp : String
  deriving Repr, DecidableEq

/-- The `metadata` sub-dict of a packet (agent.py lines 519-523). -/
structure PacketMetadata where
  disaster_type : String
  search_query : String
  relevance_score : Int
  deriving Repr, DecidableEq

/-- The `content` sub-dict of a packet (agent.py lines 524-528); the
`crawled_html_size` and `crawl_timestamp` keys exist only after crawl
enrichment, hence the `Option`. -/
structure PacketContent where
  snippet : String
  crawl_status : String
  extraction_status : String
  crawled_html_size : Option Int
  crawl_timestamp : Option String
  deriving Repr, DecidableEq

/-- The `data` sub-dict of a packet (agent.py lines 512-529); the
`structured_content` and `disaster_entities` keys exist only after
extraction enrichment (lines 550-551). -/
structure PacketData where
  source : PacketSource
  metadata : PacketMetadata
  content : PacketContent
  structured_content : Option StructuredData
  disaster_entities : Option DisasterEntities
  deriving Repr, DecidableEq

/-- The `processing_instructions` sub-dict (agent.py lines 530-535). -/
structure ProcessingInstructions where
  priority : String
  requires_crawl : Bool
  requires_extraction : Bool
  retention_days : Nat
  deriving Repr, DecidableEq

/-- One Kafka message packet (agent.py lines 506-536). -/
structure Packet where
  packet_id : String
  packet_type : String
  kafka_topic : String
  timestamp : String
  schema_version : String
  data : PacketData
  processing_instructions : ProcessingInstructions
  deriving Repr, DecidableEq

/-- The result dict of `generate_kafka_packets` (agent.py lines 490-495). -/
structure KafkaPackets where
  status : String
  timestamp : String
  packet_count : Nat
  packets : List Packet
  deriving Repr, DecidableEq

/-- The packet literal of agent.py lines 506-536 before enrichment.
`nowIso` models `datetime.now().isoformat()` and `nowKey` models
`datetime.now().strftime("%Y%m%d_%H%M%S")`. -/
def basePacket (nowIso nowKey disaster_type : String) (idx : Nat)
    (u : UrlData) : Packet :=
  { packet_id := "disaster_data_" ++ nowKey ++ "_" ++ toString idx,
    packet_type := "disaster_data_collection",
    kafka_topic := "disaster-data-ingestion",
    timestamp := nowIso,
    schema_version := "1.0",
    data :=
      { source := { url := u.url, domain := u.domain, title := u.title,
                    discovery_timestamp := u.timestamp },
        metadata := { disaster_type := disaster_type,
                      search_query := u.query,
                      relevance_score := u.relevance_score },
        content := { snippet := u.snippet, crawl_status := "pending",
                     extraction_status := "pending",
                     crawled_html_size := none, crawl_timestamp := none },
        structured_content := none,
        disaster_entities := none },
    processing_instructions :=
      { priority := if u.relevance_score > 3 then "high" else "normal",
        requires_crawl := true, requires_extraction := true,
        retention_days := 365 } }

/-- One iteration of the crawl-enrichment loop (agent.py lines 541-545):
on an exact URL match the three crawl fields are overwritten. -/
def crawlEnrichStep (u : UrlData) (c : PacketContent) (rec : CrawlRecord) :
    PacketContent :=
  if rec.url == u.url then
    { c with crawl_status := rec.status,
             crawled_html_size := some rec.content_size_bytes,
             crawl_timestamp := some rec.crawl_timestamp }
  else c

/-- The crawl records seen by the enrichment loop. -/
def crawlRecordsOf (crawl : Option CrawlData) : List CrawlRecord :=
  match crawl with
  | none => []
  | some cd => cd.crawled_data

/-- Crawl enrichment of one packet (agent.py lines 538-545): the loop
runs over every crawl record, so the last matching record wins. -/
def enrichCrawl (u : UrlData) (crawl : Option CrawlData) (p : Packet) :
    Packet :=
  match crawl with
  | none => p
  | some cd =>
    { p with data :=
        { p.data with content := cd.crawled_data.foldl (crawlEnrichStep u) p.data.content } }

/-- Extraction enrichment of one packet (agent.py lines 547-551): the
same extraction data is attached, whatever the packet URL. -/
def enrichExtraction (extraction : Option ExtractionData) (p : Packet) :
    Packet :=
  match extraction with
  | none => p
  | some ed =>
    { p with data :=
        { p.data with
          content := { p.data.content with extraction_status := ed.status },
          structured_content := some ed.structured_data,
          disaster_entities := some ed.disaster_entities } }

/-- The packet loop of agent.py lines 505-554 (`enumerate` starting at
`idx`). -/
def buildPackets (nowIso nowKey disaster_type : String)
    (crawl : Option CrawlData) (extraction : Option ExtractionData) :
    Nat → List UrlData → List Packet
  | _, [] => []
  | idx, u :: rest =>
    enrichExtraction extraction
        (enrichCrawl u crawl (basePacket nowIso nowKey disaster_type idx u)) ::
      buildPackets nowIso nowKey disaster_type crawl extraction (idx + 1) rest

/-- `generate_kafka_packets` after JSON parsing (agent.py lines 490-556):
`packet_count` is incremented once per appended packet, so it is the
length of the packet list. -/
def generatePackets (nowIso nowKey : String) (sd : SearchData)
    (crawl : Option CrawlData) (extraction : Option ExtractionData) :
    KafkaPackets :=
  let packets :=
    buildPackets nowIso nowKey sd.disaster_type crawl extraction 0
      sd.discovered_urls
  { status := "success", timestamp := nowIso,
    packet_count := packets.length, packets := packets }

/-- `generate_kafka_packets` (agent.py lines 471-556) including the JSON
parsing of lines 497-500, which has no `try`/`except`: a parse failure
(`loads... = none`) raises `json.JSONDecodeError` to the caller, modelled
by `Except.error`.  A `none` input string models a Python-falsy argument
(absent or empty), for which the source substitutes the empty dict. -/
def generate_kafka_packets
    (loadsSearch : String → Option SearchData)
    (loadsCrawl : String → Option CrawlData)
    (loadsExtraction : String → Option ExtractionData)
    (nowIso nowKey : String)
    (search_results crawl_results extraction_results : Option String) :
    Except String KafkaPackets := do
  let sd : SearchData ←
    match search_results with
    | none => pure { disaster_type := "unknown", discovered_urls := [] }
    | some s =>
      match loadsSearch s with
      | none => Except.error "json.JSONDecodeError"
      | some sd => pure sd
  let crawl : Option CrawlData ←
    match crawl_results with
    | none => pure none
    | some s =>
      match loadsCrawl s with
      | none => Except.error "json.JSONDecodeError"
      | some cd => pure (some cd)
  let extraction : Option ExtractionData ←
    match extraction_results with
    | none => pure none
    | some s =>
      match loadsExtraction s with
      | none => Except.error "json.JSONDecodeError"
      | some ed => pure (some ed)
  pure (generatePackets nowIso nowKey sd crawl extraction)

/-- The fixed `kafka_config` dict (agent.py lines 584-589). -/
structure KafkaConfig where
  topic : String
  key_field : String
  partition_key : String
  serialization : String
  deriving Repr, DecidableEq

/-- Result dict of `format_kafka_packets_for_output`; the error shape of
agent.py lines 572-575 carries only `status` and `error_message`, so the
remaining fields are defaulted and `Option` fields model key absence. -/
structure FormatOutput where
  status : String
  error_message : Option String
  total_packets : Nat
  timestamp : String
  summary : String
  sample_packet : Option Packet
  all_packets : List Packet
  kafka_config : Option KafkaConfig
  deriving Repr, DecidableEq

/-- The `kafka_config` literal of agent.py lines 584-589. -/
def theKafkaConfig : KafkaConfig :=
  { topic := "disaster-data-ingestion", key_field := "packet_id",
    partition_key := "disaster_type", serialization := "json" }

/-- `format_kafka_packets_for_output` (agent.py lines 559-592): here the
`json.loads` call is wrapped in `try`/`except`, so a parse failure (and
the `TypeError` on a `None` argument) yields the structured error dict
of lines 572-575. -/
def format_kafka_packets_for_output
    (loadsPackets : String → Option KafkaPackets)
    (packet_data : Option String) : FormatOutput :=
  let parsed : Option KafkaPackets :=
    match packet_data with
    | none => none
    | some s => loadsPackets s
  match parsed with
  | none =>
    { status := "error", error_message := some "Invalid packet data format",
      total_packets := 0, timestamp := "", summary := "",
      sample_packet := none, all_packets := [], kafka_config := none }
  | some pk =>
    { status := "success", error_message := none,
      total_packets := pk.packet_count,
      timestamp := pk.timestamp,
      summary := "Generated " ++ toString pk.packet_count ++
        " Kafka message packets ready for ingestion",
      sample_packet := pk.packets.head?,
      all_packets := pk.packets,
      kafka_config := some theKafkaConfig }

/-! ## Lemmas about the packet builder -/

/-- The packet list has one packet per discovered URL. -/
theorem buildPackets_length (nowIso nowKey disaster_type : String)
    (crawl : Option CrawlData) (extraction : Option ExtractionData) :
    ∀ (urls : List UrlData) (idx : Nat),
      (buildPackets nowIso nowKey disaster_type crawl extraction idx urls).length =
        urls.length := by
  intro urls
  induction urls with
  | nil => intro idx; rfl
  | cons u rest ih =>
    intro idx
    rw [buildPackets, List.length_cons, List.length_cons, ih]

/-- Every (packet, url) pair of the zip of the built packets with the
URL list is an enriched base packet for that very URL. -/
theorem buildPackets_zip (nowIso nowKey disaster_type : String)
    (crawl : Option CrawlData) (extraction : Option ExtractionData) :
    ∀ (urls : List UrlData) (idx : Nat) (pu : Packet × UrlData),
      pu ∈ (buildPackets nowIso nowKey disaster_type crawl extraction idx
        urls).zip urls →
      ∃ j, pu.1 = enrichExtraction extraction
        (enrichCrawl pu.2 crawl (basePacket nowIso nowKey disaster_type j pu.2)) := by
  intro urls
  induction urls with
  | nil => intro idx pu h; exact absurd h (List.not_mem_nil _)
  | cons u rest ih =>
    intro idx pu h
    rw [buildPackets, List.zip_cons_cons] at h
    rcases List.mem_cons.mp h with rfl | h
    · exact ⟨idx, rfl⟩
    · exact ih (idx + 1) pu h

/-- Every built packet is an enriched base packet for some URL of the
input list. -/
theorem buildPackets_mem (nowIso nowKey disaster_type : String)
    (crawl : Option CrawlData) (extraction : Option ExtractionData) :
    ∀ (urls : List UrlData) (idx : Nat) (p : Packet),
      p ∈ buildPackets nowIso nowKey disaster_type crawl extraction idx urls →
      ∃ j u, u ∈ urls ∧ p = enrichExtraction extraction
        (enrichCrawl u crawl (basePacket nowIso nowKey disaster_type j u)) := by
  intro urls
  induction urls with
  | nil => intro idx p h; exact absurd h (List.not_mem_nil _)
  | cons u rest ih =>
    intro idx p h
    rw [buildPackets] at h
    rcases List.mem_cons.mp h with rfl | h
    · exact ⟨idx, u, List.mem_cons_self _ _, rfl⟩
    · obtain ⟨j, u2, hu2, hp⟩ := ih (idx + 1) p h
      exact ⟨j, u2, List.mem_cons_of_mem _ hu2, hp⟩

/-- Crawl enrichment leaves the processing instructions unchanged. -/
theorem enrichCrawl_instructions (u : UrlData) (crawl : Option CrawlData)
    (p : Packet) :
    (enrichCrawl u crawl p).processing_instructions =
      p.processing_instructions := by
  cases crawl <;> rfl

/-- Extraction enrichment leaves the processing instructions unchanged. -/
theorem enrichExtraction_instructions (extraction : Option ExtractionData)
    (p : Packet) :
    (enrichExtraction extraction p).processing_instructions =
      p.processing_instructions := by
  cases extraction <;> rfl

/-- Crawl enrichment leaves the packet metadata unchanged. -/
theorem enrichCrawl_metadata (u : UrlData) (crawl : Option CrawlData)
    (p : Packet) :
    (enrichCrawl u crawl p).data.metadata = p.data.metadata := by
  cases crawl <;> rfl

/-- Extraction enrichment leaves the packet metadata unchanged. -/
theorem enrichExtraction_metadata (extraction : Option ExtractionData)
    (p : Packet) :
    (enrichExtraction extraction p).data.metadata = p.data.metadata := by
  cases extraction <;> rfl

/-- Crawl enrichment leaves the packet source unchanged. -/
theorem enrichCrawl_source (u : UrlData) (crawl : Option CrawlData)
    (p : Packet) :
    (enrichCrawl u crawl p).data.source = p.data.source := by
  cases crawl <;> rfl

/-- Extraction enrichment leaves the packet source unchanged. -/
theorem enrichExtraction_source (extraction : Option ExtractionData)
    (p : Packet) :
    (enrichExtraction extraction p).data.source = p.data.source := by
  cases extraction <;> rfl

/-- Extraction enrichment leaves the three crawl fields unchanged. -/
theorem enrichExtraction_crawl_fields (extraction : Option ExtractionData)
    (p : Packet) :
    (enrichExtraction extraction p).data.content.crawl_status =
      p.data.content.crawl_status ∧
    (enrichExtraction extraction p).data.content.crawled_html_size =
      p.data.content.crawled_html_size ∧
    (enrichExtraction extraction p).data.content.crawl_timestamp =
      p.data.content.crawl_timestamp := by
  cases extraction <;> exact ⟨rfl, rfl, rfl⟩

/-- The crawl-enrichment fold is the identity when no record has an
exactly matching URL. -/
theorem foldl_crawlEnrich_no_match (u : UrlData) :
    ∀ (recs : List CrawlRecord) (c : PacketContent),
      (∀ rec ∈ recs, rec.url ≠ u.url) →
      recs.foldl (crawlEnrichStep u) c = c := by
  intro recs
  induction recs with
  | nil => intro c _; rfl
  | cons rec0 rest ih =>
    intro c h
    rw [List.foldl_cons]
    have hstep : crawlEnrichStep u c rec0 = c := by
      rw [crawlEnrichStep,
        if_neg (by
          intro hb
          exact h rec0 (List.mem_cons_self _ _) (eq_of_beq hb))]
    rw [hstep]
    exact ih c fun r hr => h r (List.mem_cons_of_mem _ hr)

/-- When some record has an exactly matching URL, the crawl-enrichment
fold copies the three crawl fields from a matching record. -/
theorem foldl_crawlEnrich_match (u : UrlData) :
    ∀ (recs : List CrawlRecord) (c : PacketContent),
      (∃ rec ∈ recs, rec.url = u.url) →
      ∃ rec ∈ recs, rec.url = u.url ∧
        (recs.foldl (crawlEnrichStep u) c).crawl_status = rec.status ∧
        (recs.foldl (crawlEnrichStep u) c).crawled_html_size =
          some rec.content_size_bytes ∧
        (recs.foldl (crawlEnrichStep u) c).crawl_timestamp =
          some rec.crawl_timestamp := by
  intro recs
  induction recs with
  | nil =>
    rintro c ⟨rec, hm, -⟩
    exact absurd hm (List.not_mem_nil _)
  | cons rec0 rest ih =>
    intro c hex
    rw [List.foldl_cons]
    by_cases hrest : ∃ rec ∈ rest, rec.url = u.url
    · obtain ⟨rec, hm, he, h1, h2, h3⟩ := ih (crawlEnrichStep u c rec0) hrest
      exact ⟨rec, List.mem_cons_of_mem _ hm, he, h1, h2, h3⟩
    · have hrec0 : rec0.url = u.url := by
        rcases hex with ⟨rec, hm, he⟩
        rcases List.mem_cons.mp hm with rfl | hm
        · exact he
        · exact absurd ⟨rec, hm, he⟩ hrest
      have hstep : crawlEnrichStep u c rec0 =
          { c with crawl_status := rec0.status,
                   crawled_html_size := some rec0.content_size_bytes,
                   crawl_timestamp := some rec0.crawl_timestamp } := by
        rw [crawlEnrichStep, if_pos (beq_iff_eq.mpr hrec0)]
      rw [hstep,
        foldl_crawlEnrich_no_match u rest _
          (fun r hr he => hrest ⟨r, hr, he⟩)]
      exact ⟨rec0, List.mem_cons_self _ _, hrec0, rfl, rfl, rfl⟩

/-- The extraction enrichment attached to every packet, as a function of
the extraction input alone. -/
def extractionStructured (extraction : Option ExtractionData) :
    Option StructuredData :=
  match extraction with
  | none => none
  | some ed => some ed.structured_data

/-- The entity enrichment attached to every packet, as a function of the
extraction input alone. -/
def extractionEntities (extraction : Option ExtractionData) :
    Option DisasterEntities :=
  match extraction with
  | none => none
  | some ed => some ed.disaster_entities

/-- The `structured_content`, `disaster_entities` and `extraction_status`
of every built packet are determined by the extraction input alone. -/
theorem buildPackets_extraction_fields (nowIso nowKey disaster_type : String)
    (crawl : Option CrawlData) (extraction : Option ExtractionData)
    (urls : List UrlData) (idx : Nat) (p : Packet)
    (h : p ∈ buildPackets nowIso nowKey disaster_type crawl extraction idx urls) :
    p.data.structured_content = extractionStructured extraction ∧
    p.data.disaster_entities = extractionEntities extraction ∧
    (∀ ed, extraction = some ed →
      p.data.content.extraction_status = ed.status) := by
  obtain ⟨j, u, -, rfl⟩ :=
    buildPackets_mem nowIso nowKey disaster_type crawl extraction urls idx p h
  cases extraction with
  | none =>
    refine ⟨?_, ?_, ?_⟩
    · show (enrichCrawl u crawl (basePacket nowIso nowKey disaster_type j u)).data.structured_content = none
      rw [show ∀ q, (enrichCrawl u crawl q).data.structured_content =
        q.data.structured_content from fun q => by cases crawl <;> rfl]
      rfl
    · show (enrichCrawl u crawl (basePacket nowIso nowKey disaster_type j u)).data.disaster_entities = none
      rw [show ∀ q, (enrichCrawl u crawl q).data.disaster_entities =
        q.data.disaster_entities from fun q => by cases crawl <;> rfl]
      rfl
    · intro ed hed
      exact absurd hed (by simp)
  | some ed =>
    exact ⟨rfl, rfl, fun ed2 hed => by
      injection hed with h2
      subst h2
      rfl⟩

/-! ## Sample data used by witnesses -/

/-- A discovered URL with relevance score 3. -/
def sampleUrl3 : UrlData :=
  { url := "u3", domain := "", title := "", timestamp := "", query := "",
    snippet := "", relevance_score := 3 }

/-- A discovered URL with relevance score 4. -/
def sampleUrl4 : UrlData :=
  { url := "u4", domain := "", title := "", timestamp := "", query := "",
    snippet := "", relevance_score := 4 }

/-- A search-results value with two discovered URLs. -/
def sampleSearchData : SearchData :=
  { disaster_type := "floods", discovered_urls := [sampleUrl3, sampleUrl4] }

/-- A crawl record matching `sampleUrl4`. -/
def sampleCrawlRecord : CrawlRecord :=
  { url := "u4", status := "success", content_size_bytes := 123,
    crawl_timestamp := "ts" }

/-- A crawl-results value with one record, matching `sampleUrl4`. -/
def sampleCrawl : CrawlData :=
  { crawled_data := [sampleCrawlRecord] }

/-- A structured-data value. -/
def sampleStructured : StructuredData :=
  { title := "T", headings := [], paragraphs := ["p"], tables := [],
    lists := [], metadata := [] }

/-- An entity value. -/
def sampleEntities : DisasterEntities :=
  { dates := [], locations := [], event_names := [], casualties := [] }

/-- An extraction-results value. -/
def sampleExtraction : ExtractionData :=
  { status := "success", structured_data := sampleStructured,
    disaster_entities := sampleEntities }

/-- C3 (amended): for every input string on which JSON parsing fails,
`generate_kafka_packets` raises the decode exception to its caller
(modelled by `Except.error`; agent.py lines 497-500 have no
`try`/`except`) and emits no packets, while
`format_kafka_packets_for_output` returns a structured `status="error"`
result with no packets.  (The original claim, that the packet builder
itself reports a structured error and that no public operation
propagates an exception, fails: see the counterexample.) -/
theorem C3_malformed_json_handling
    (loadsSearch : String → Option SearchData)
    (loadsCrawl : String → Option CrawlData)
    (loadsExtraction : String → Option ExtractionData)
    (loadsPackets : String → Option KafkaPackets)
    (nowIso nowKey : String)
    (crawl_results extraction_results : Option String) (s : String)
    (hs : loadsSearch s = none) (hp : loadsPackets s = none) :
    generate_kafka_packets loadsSearch loadsCrawl loadsExtraction nowIso
      nowKey (some s) crawl_results extraction_results =
      Except.error "json.JSONDecodeError" ∧
    (format_kafka_packets_for_output loadsPackets (some s)).status =
      "error" ∧
    (format_kafka_packets_for_output loadsPackets (some s)).error_message =
      some "Invalid packet data format" ∧
    (format_kafka_packets_for_output loadsPackets (some s)).all_packets =
      [] := by
  refine ⟨?_, ?_, ?_, ?_⟩
  · rw [generate_kafka_packets, hs]
    rfl
  · simp [format_kafka_packets_for_output, hp]
  · simp [format_kafka_packets_for_output, hp]
  · simp [format_kafka_packets_for_output, hp]

/-- C3 witness: the amended theorem at the concrete non-JSON string
`"not json"`, with the external parser behaviour that rejects it. -/
theorem C3_malformed_json_handling_witness :
    generate_kafka_packets (fun _ => none) (fun _ => none) (fun _ => none)
      "t" "k" (some "not json") none none =
      Except.error "json.JSONDecodeError" ∧
    (format_kafka_packets_for_output (fun _ => none)
      (some "not json")).status = "error" ∧
    (format_kafka_packets_for_output (fun _ => none)
      (some "not json")).error_message =
      some "Invalid packet data format" ∧
    (format_kafka_packets_for_output (fun _ => none)
      (some "not json")).all_packets = [] :=
  C3_malformed_json_handling (fun _ => none) (fun _ => none)
    (fun _ => none) (fun _ => none) "t" "k" none none "not json" rfl rfl

/-- C3 counterexample: on the non-JSON input `"not json"` the packet
builder does not return a result object at all -- the `json.loads`
exception of agent.py line 498 propagates to the caller (the
`Except.error` outcome), so the claimed structured error status is never
produced by `generate_kafka_packets`. -/
theorem C3_counterexample :
    generate_kafka_packets (fun _ => none) (fun _ => none) (fun _ => none)
      "t" "k" (some "not json") none none =
      Except.error "json.JSONDecodeError" := by
  rfl

/-- C4: the packet count returned by the builder equals the number of
discovered URLs in the supplied search results, and exactly one packet
is emitted per discovered URL, for every input (0, 1 or more URLs) and
every crawl/extraction enrichment. -/
theorem C4_packet_count_matches_urls (nowIso nowKey : String)
    (sd : SearchData) (crawl : Option CrawlData)
    (extraction : Option ExtractionData) :
    (generatePackets nowIso nowKey sd crawl extraction).packet_count =
      sd.discovered_urls.length ∧
    (generatePackets nowIso nowKey sd crawl extraction).packets.length =
      sd.discovered_urls.length := by
  have h := buildPackets_length nowIso nowKey sd.disaster_type crawl
    extraction sd.discovered_urls 0
  exact ⟨h, h⟩

/-- C5: pairing each emitted packet with its discovered URL, the packet
records the relevance score of that URL, and its priority is `"high"`
exactly when that score is strictly greater than 3, else `"normal"`. -/
theorem C5_priority_iff_score_gt_three (nowIso nowKey : String)
    (sd : SearchData) (crawl : Option CrawlData)
    (extraction : Option ExtractionData) :
    ∀ pu ∈ (generatePackets nowIso nowKey sd crawl extraction).packets.zip
      sd.discovered_urls,
      pu.1.data.metadata.relevance_score = pu.2.relevance_score ∧
      pu.1.processing_instructions.priority =
        (if pu.2.relevance_score > 3 then "high" else "normal") ∧
      (pu.1.processing_instructions.priority = "high" ↔
        pu.2.relevance_score > 3) := by
  intro pu h
  obtain ⟨j, hp⟩ := buildPackets_zip nowIso nowKey sd.disaster_type crawl
    extraction sd.discovered_urls 0 pu h
  refine ⟨?_, ?_, ?_⟩
  · rw [hp, enrichExtraction_metadata, enrichCrawl_metadata]
    rfl
  · rw [hp, enrichExtraction_instructions, enrichCrawl_instructions]
    rfl
  · rw [hp, enrichExtraction_instructions, enrichCrawl_instructions]
    show ((if pu.2.relevance_score > 3 then "high" else "normal") = "high") ↔ _
    by_cases hc : pu.2.relevance_score > 3
    · simp [hc]
    · simp [hc]

/-- C5 witness: the theorem at a concrete two-URL input, for the packet
of the score-4 URL. -/
theorem C5_priority_iff_score_gt_three_witness :
    (basePacket "t" "k" "floods" 1 sampleUrl4).data.metadata.relevance_score =
      sampleUrl4.relevance_score ∧
    (basePacket "t" "k" "floods" 1 sampleUrl4).processing_instructions.priority =
      (if sampleUrl4.relevance_score > 3 then "high" else "normal") ∧
    ((basePacket "t" "k" "floods" 1 sampleUrl4).processing_instructions.priority =
      "high" ↔ sampleUrl4.relevance_score > 3) :=
  C5_priority_iff_score_gt_three "t" "k" sampleSearchData none none
    (basePacket "t" "k" "floods" 1 sampleUrl4, sampleUrl4)
    (List.mem_cons_of_mem _ (List.mem_cons_self _ _))

/-- C6: pairing each emitted packet with its discovered URL, the packet
keeps its URL as source; if no crawl record has a URL exactly equal to
it, the packet retains `crawl_status="pending"` with no
`crawled_html_size` or `crawl_timestamp` key; if some crawl record
matches exactly, the three crawl fields are copied from a matching
record. -/
theorem C6_crawl_enrichment_iff_url_match (nowIso nowKey : String)
    (sd : SearchData) (crawl : Option CrawlData)
    (extraction : Option ExtractionData) :
    ∀ pu ∈ (generatePackets nowIso nowKey sd crawl extraction).packets.zip
      sd.discovered_urls,
      pu.1.data.source.url = pu.2.url ∧
      ((∀ rec ∈ crawlRecordsOf crawl, rec.url ≠ pu.2.url) →
        pu.1.data.content.crawl_status = "pending" ∧
        pu.1.data.content.crawled_html_size = none ∧
        pu.1.data.content.crawl_timestamp = none) ∧
      ((∃ rec ∈ crawlRecordsOf crawl, rec.url = pu.2.url) →
        ∃ rec ∈ crawlRecordsOf crawl, rec.url = pu.2.url ∧
          pu.1.data.content.crawl_status = rec.status ∧
          pu.1.data.content.crawled_html_size =
            some rec.content_size_bytes ∧
          pu.1.data.content.crawl_timestamp =
            some rec.crawl_timestamp) := by
  intro pu h
  obtain ⟨j, hp⟩ := buildPackets_zip nowIso nowKey sd.disaster_type crawl
    extraction sd.discovered_urls 0 pu h
  obtain ⟨hcs, hsz, hts⟩ := enrichExtraction_crawl_fields extraction
    (enrichCrawl pu.2 crawl (basePacket nowIso nowKey sd.disaster_type j pu.2))
  refine ⟨?_, ?_, ?_⟩
  · rw [hp, enrichExtraction_source, enrichCrawl_source]
    rfl
  · intro hno
    rw [hp, hcs, hsz, hts]
    cases crawl with
    | none => exact ⟨rfl, rfl, rfl⟩
    | some cd =>
      have hq : (enrichCrawl pu.2 (some cd)
          (basePacket nowIso nowKey sd.disaster_type j pu.2)).data.content =
          cd.crawled_data.foldl (crawlEnrichStep pu.2)
            (basePacket nowIso nowKey sd.disaster_type j pu.2).data.content := rfl
      rw [hq, foldl_crawlEnrich_no_match pu.2 cd.crawled_data _ hno]
      exact ⟨rfl, rfl, rfl⟩
  · intro hex
    cases crawl with
    | none =>
      rcases hex with ⟨rec, hm, -⟩
      exact absurd hm (List.not_mem_nil _)
    | some cd =>
      obtain ⟨rec, hm, he, h1, h2, h3⟩ := foldl_crawlEnrich_match pu.2
        cd.crawled_data
        (basePacket nowIso nowKey sd.disaster_type j pu.2).data.content hex
      refine ⟨rec, hm, he, ?_, ?_, ?_⟩
      · rw [hp, hcs]; exact h1
      · rw [hp, hsz]; exact h2
      · rw [hp, hts]; exact h3

/-- C6 witness: the theorem at a concrete input whose single crawl
record matches the second URL exactly. -/
theorem C6_crawl_enrichment_iff_url_match_witness :
    ∃ rec ∈ crawlRecordsOf (some sampleCrawl), rec.url = sampleUrl4.url ∧
      (enrichExtraction none (enrichCrawl sampleUrl4 (some sampleCrawl)
        (basePacket "t" "k" "floods" 1 sampleUrl4))).data.content.crawl_status =
        rec.status ∧
      (enrichExtraction none (enrichCrawl sampleUrl4 (some sampleCrawl)
        (basePacket "t" "k" "floods" 1 sampleUrl4))).data.content.crawled_html_size =
        some rec.content_size_bytes ∧
      (enrichExtraction none (enrichCrawl sampleUrl4 (some sampleCrawl)
        (basePacket "t" "k" "floods" 1 sampleUrl4))).data.content.crawl_timestamp =
        some rec.crawl_timestamp :=
  (C6_crawl_enrichment_iff_url_match "t" "k" sampleSearchData
      (some sampleCrawl) none
      (enrichExtraction none (enrichCrawl sampleUrl4 (some sampleCrawl)
        (basePacket "t" "k" "floods" 1 sampleUrl4)), sampleUrl4)
      (List.mem_cons_of_mem _ (List.mem_cons_self _ _))).2.2
    ⟨sampleCrawlRecord, List.mem_cons_self _ _, rfl⟩

/-- C8: within one invocation of the packet builder, the extraction data
is attached identically to every packet: any two packets have equal
`structured_content` and equal `disaster_entities`, and when extraction
results are supplied every packet carries exactly that shared
`structured_data`, `disaster_entities` and `status`, regardless of its
source URL. -/
theorem C8_extraction_attached_uniformly (nowIso nowKey : String)
    (sd : SearchData) (crawl : Option CrawlData)
    (extraction : Option ExtractionData) :
    (∀ p ∈ (generatePackets nowIso nowKey sd crawl extraction).packets,
      ∀ q ∈ (generatePackets nowIso nowKey sd crawl extraction).packets,
        p.data.structured_content = q.data.structured_content ∧
        p.data.disaster_entities = q.data.disaster_entities) ∧
    (∀ ed, extraction = some ed →
      ∀ p ∈ (generatePackets nowIso nowKey sd crawl extraction).packets,
        p.data.content.extraction_status = ed.status ∧
        p.data.structured_content = some ed.structured_data ∧
        p.data.disaster_entities = some ed.disaster_entities) := by
  constructor
  · intro p hp q hq
    obtain ⟨hp1, hp2, -⟩ := buildPackets_extraction_fields nowIso nowKey
      sd.disaster_type crawl extraction sd.discovered_urls 0 p hp
    obtain ⟨hq1, hq2, -⟩ := buildPackets_extraction_fields nowIso nowKey
      sd.disaster_type crawl extraction sd.discovered_urls 0 q hq
    exact ⟨hp1.trans hq1.symm, hp2.trans hq2.symm⟩
  · intro ed hed p hp
    obtain ⟨hp1, hp2, hp3⟩ := buildPackets_extraction_fields nowIso nowKey
      sd.disaster_type crawl extraction sd.discovered_urls 0 p hp
    subst hed
    refine ⟨hp3 ed rfl, ?_, ?_⟩
    · rw [hp1]
      rfl
    · rw [hp2]
      rfl

/-- C8 witness: the theorem at a concrete two-URL input with extraction
results supplied. -/
theorem C8_extraction_attached_uniformly_witness :
    (enrichExtraction (some sampleExtraction) (enrichCrawl sampleUrl3 none
      (basePacket "t" "k" "floods" 0 sampleUrl3))).data.content.extraction_status =
      sampleExtraction.status ∧
    (enrichExtraction (some sampleExtraction) (enrichCrawl sampleUrl3 none
      (basePacket "t" "k" "floods" 0 sampleUrl3))).data.structured_content =
      some sampleExtraction.structured_data ∧
    (enrichExtraction (some sampleExtraction) (enrichCrawl sampleUrl3 none
      (basePacket "t" "k" "floods" 0 sampleUrl3))).data.disaster_entities =
      some sampleExtraction.disaster_entities :=
  (C8_extraction_attached_uniformly "t" "k" sampleSearchData none
      (some sampleExtraction)).2 sampleExtraction rfl
    (enrichExtraction (some sampleExtraction) (enrichCrawl sampleUrl3 none
      (basePacket "t" "k" "floods" 0 sampleUrl3)))
    (List.mem_cons_self _ _)

/-! ## US1.3 Structured extraction (`extract_structured_data`)

The HTML parser (BeautifulSoup) is external: the input here is the list
of stripped `<p>` texts it delivers, in document order. -/

/-- The paragraph filter of agent.py lines 382-386: a stripped paragraph
text is appended exactly when its length exceeds 20 characters. -/
def extractParagraphs (pTexts : List String) : List String :=
  pTexts.filter fun t => decide (t.length > 20)

/-- C7: for every HTML input (given by its stripped paragraph texts), no
paragraph shorter than 20 characters appears in the extraction output,
and every paragraph of exactly 21 characters does appear. -/
theorem C7_paragraph_length_filter (pTexts : List String) :
    (∀ t ∈ extractParagraphs pTexts, ¬(t.length < 20)) ∧
    (∀ t ∈ pTexts, t.length = 21 → t ∈ extractParagraphs pTexts) := by
  constructor
  · intro t ht hlt
    have h := (List.mem_filter.mp ht).2
    have h20 : t.length > 20 := of_decide_eq_true h
    omega
  · intro t ht h21
    apply List.mem_filter.mpr
    refine ⟨ht, ?_⟩
    rw [h21]
    decide

/-- C7 witness: the theorem at a concrete paragraph list holding a
20-character, a 21-character and a 5-character text. -/
theorem C7_paragraph_length_filter_witness :
    "abcdefghijklmnopqrstu" ∈ extractParagraphs
      ["abcdefghijklmnopqrst", "abcdefghijklmnopqrstu", "short"] :=
  (C7_paragraph_length_filter
      ["abcdefghijklmnopqrst", "abcdefghijklmnopqrstu", "short"]).2
    "abcdefghijklmnopqrstu" (by decide) (by decide)

/-! ## US1.2 Crawl4AI crawling (`crawl_urls_with_ai`)

The external `crawler.arun` call is a parameter; the import check
(agent.py lines 231-238) and the event-loop dispatch of the whole batch
(lines 293-312) are environmental and outside this model, which embeds
the per-URL loop of `crawl_async` (lines 250-291). -/

/-- One outcome of the external `crawler.arun(url)` call: `ok` carries
the fields read at agent.py lines 257-271 (a Python-`None` field is the
empty value); `failed` is a returned result with `success=False`, with
`none` when it has no `error_message` attribute; `exn` is a raised
exception with its message. -/
inductive ArunOutcome where
  | ok (html markdown extracted_content : String)
      (links media : List (String × String)) (title description : String)
  | failed (error_message : Option String)
  | exn (msg : String)
  deriving Repr, DecidableEq

/-- One entry of `crawled_data`: the success shape of agent.py lines
258-272 or the error shapes of lines 278-282 and 286-290.  `Option`
fields model keys present only in one shape; `title` and `description`
model the `metadata` sub-dict. -/
structure CrawledItem where
  url : String
  status : String
  html : Option String
  markdown : Option String
  extracted_content : Option String
  links : Option (List (String × String))
  media : Option (List (String × String))
  title : Option String
  description : Option String
  crawl_timestamp : Option String
  content_size_bytes : Option Nat
  error_message : Option String
  deriving Repr, DecidableEq

/-- The result dict of `crawl_urls_with_ai` (agent.py lines 240-247). -/
structure CrawlOutput where
  status : String
  timestamp : String
  crawled_data : List CrawledItem
  success_count : Nat
  error_count : Nat
  total_size_bytes : Nat
  deriving Repr, DecidableEq

/-- The `crawled_data` entry built for one URL from its crawl outcome
(agent.py lines 257-290): HTML and markdown are truncated to 5000
characters, links are capped at 20, `content_size_bytes` is the length
of the untruncated HTML. -/
def crawlEntry (now url : String) : ArunOutcome → CrawledItem
  | ArunOutcome.ok html markdown extracted_content links media title description =>
    { url := url, status := "success",
      html := some (pyTake html 5000),
      markdown := some (pyTake markdown 5000),
      extracted_content := some extracted_content,
      links := some (links.take 20),
      media := some media,
      title := some title, description := some description,
      crawl_timestamp := some now,
      content_size_bytes := some html.length,
      error_message := none }
  | ArunOutcome.failed msg =>
    { url := url, status := "error",
      html := none, markdown := none, extracted_content := none,
      links := none, media := none, title := none, description := none,
      crawl_timestamp := none, content_size_bytes := none,
      error_message := some (match msg with
        | none => "Crawl failed"
        | some m => m) }
  | ArunOutcome.exn m =>
    { url := url, status := "error",
      html := none, markdown := none, extracted_content := none,
      links := none, media := none, title := none, description := none,
      crawl_timestamp := none, content_size_bytes := none,
      error_message := some m }

/-- One iteration of the crawl loop: the entry is appended and exactly
one of the two counters is incremented (agent.py lines 274-276, 283,
291). -/
def crawlStep (now : String) (res : CrawlOutput) (url : String)
    (out : ArunOutcome) : CrawlOutput :=
  match out with
  | ArunOutcome.ok html _ _ _ _ _ _ =>
    { res with
      crawled_data := res.crawled_data ++ [crawlEntry now url out],
      success_count := res.success_count + 1,
      total_size_bytes := res.total_size_bytes + html.length }
  | ArunOutcome.failed _ =>
    { res with
      crawled_data := res.crawled_data ++ [crawlEntry now url out],
      error_count := res.error_count + 1 }
  | ArunOutcome.exn _ =>
    { res with
      crawled_data := res.crawled_data ++ [crawlEntry now url out],
      error_count := res.error_count + 1 }

/-- The `crawl_async` loop of `crawl_urls_with_ai` (agent.py lines
250-291) over the requested URLs. -/
def crawl_urls_with_ai (crawler : String → ArunOutcome) (now : String)
    (urls : List String) : CrawlOutput :=
  urls.foldl (fun res url => crawlStep now res url (crawler url))
    { status := "success", timestamp := now, crawled_data := [],
      success_count := 0, error_count := 0, total_size_bytes := 0 }

/-- Each loop iteration appends exactly one entry and increments exactly
one counter. -/
theorem crawlStep_spec (now url : String) (res : CrawlOutput)
    (out : ArunOutcome) :
    (crawlStep now res url out).crawled_data =
      res.crawled_data ++ [crawlEntry now url out] ∧
    (crawlStep now res url out).success_count +
      (crawlStep now res url out).error_count =
      res.success_count + res.error_count + 1 := by
  cases out <;> simp [crawlStep] <;> omega

/-- The crawl fold appends one entry per URL, each computed from that
URL alone, and advances the counter sum by the number of URLs. -/
theorem crawl_fold_spec (crawler : String → ArunOutcome) (now : String) :
    ∀ (urls : List String) (res : CrawlOutput),
      (urls.foldl (fun r url => crawlStep now r url (crawler url))
        res).crawled_data =
        res.crawled_data ++
          urls.map (fun url => crawlEntry now url (crawler url)) ∧
      (urls.foldl (fun r url => crawlStep now r url (crawler url))
          res).success_count +
        (urls.foldl (fun r url => crawlStep now r url (crawler url))
          res).error_count =
        res.success_count + res.error_count + urls.length := by
  intro urls
  induction urls with
  | nil => intro res; simp
  | cons url rest ih =>
    intro res
    rw [List.foldl_cons]
    obtain ⟨ih1, ih2⟩ := ih (crawlStep now res url (crawler url))
    obtain ⟨hs1, hs2⟩ := crawlStep_spec now url res (crawler url)
    constructor
    · rw [ih1, hs1, List.map_cons, List.append_assoc, List.singleton_append]
    · rw [ih2, hs2, List.length_cons]
      omega

/-- The status of every crawl entry is `"success"` or `"error"`. -/
theorem crawlEntry_status (now url : String) (out : ArunOutcome) :
    (crawlEntry now url out).status = "success" ∨
    (crawlEntry now url out).status = "error" := by
  cases out
  · exact Or.inl rfl
  · exact Or.inr rfl
  · exact Or.inr rfl

/-- C9: for every URL list and every behaviour of the external crawler,
each URL of the batch yields exactly one `crawled_data` entry computed
from that URL alone (so one URL failing cannot abort or alter the
others), every entry has status `"success"` or `"error"`, and the
success and error counters sum to the number of entries. -/
theorem C9_per_url_independence (crawler : String → ArunOutcome)
    (now : String) (urls : List String) :
    (crawl_urls_with_ai crawler now urls).crawled_data =
      urls.map (fun url => crawlEntry now url (crawler url)) ∧
    (∀ item ∈ (crawl_urls_with_ai crawler now urls).crawled_data,
      item.status = "success" ∨ item.status = "error") ∧
    (crawl_urls_with_ai crawler now urls).success_count +
      (crawl_urls_with_ai crawler now urls).error_count =
      (crawl_urls_with_ai crawler now urls).crawled_data.length := by
  obtain ⟨h1, h2⟩ := crawl_fold_spec crawler now urls
    { status := "success", timestamp := now, crawled_data := [],
      success_count := 0, error_count := 0, total_size_bytes := 0 }
  refine ⟨?_, ?_, ?_⟩
  · rw [show (crawl_urls_with_ai crawler now urls).crawled_data =
      _ from h1]
    rw [List.nil_append]
  · intro item hitem
    rw [show (crawl_urls_with_ai crawler now urls).crawled_data =
      _ from h1, List.nil_append] at hitem
    obtain ⟨url, -, rfl⟩ := List.mem_map.mp hitem
    exact crawlEntry_status now url (crawler url)
  · have h2x : (crawl_urls_with_ai crawler now urls).success_count +
        (crawl_urls_with_ai crawler now urls).error_count =
        urls.length := by
      simpa using h2
    rw [show (crawl_urls_with_ai crawler now urls).crawled_data =
      _ from h1, List.nil_append, List.length_map]
    exact h2x

/-- A crawler behaviour for the witness: URL `"a"` succeeds, every other
URL raises. -/
def sampleCrawler : String → ArunOutcome := fun url =>
  if url == "a" then ArunOutcome.ok "<html>" "md" "" [] [] "T" "D"
  else ArunOutcome.exn "boom"

/-- C9 witness: the theorem at a concrete two-URL batch in which the
first URL succeeds and the second raises. -/
theorem C9_per_url_independence_witness :
    ((crawl_urls_with_ai sampleCrawler "t" ["a", "b"]).crawled_data =
      ["a", "b"].map (fun url => crawlEntry "t" url (sampleCrawler url))) ∧
    ((crawlEntry "t" "b" (sampleCrawler "b")).status = "success" ∨
      (crawlEntry "t" "b" (sampleCrawler "b")).status = "error") ∧
    (crawl_urls_with_ai sampleCrawler "t" ["a", "b"]).success_count +
      (crawl_urls_with_ai sampleCrawler "t" ["a", "b"]).error_count =
      (crawl_urls_with_ai sampleCrawler "t" ["a", "b"]).crawled_data.length := by
  obtain ⟨h1, h2, h3⟩ := C9_per_url_independence sampleCrawler "t" ["a", "b"]
  refine ⟨h1, h2 _ ?_, h3⟩
  rw [h1]
  exact List.mem_cons_of_mem _ (List.mem_cons_self _ _)

/-! ## Local Python execution tool (`run_python_code`)

`textwrap.dedent` and the `exec` primitive are external parameters; Python
`str.strip()` is modelled by `String.trim`.  An execution outcome is
either normal termination, a raised `Exception`-derived error (caught by
the `except Exception` handler at python_exec_tool.py line 35), or a
raised `BaseException` that is not an `Exception` (such as `SystemExit`),
which that handler does not catch.  Each raising outcome carries the
stdout captured before the failure. -/

/-- The outcome of `exec(dedented, ...)` under `redirect_stdout`. -/
inductive ExecOutcome where
  | normal (stdout : String)
  | raisedExc (stdout : String) (traceback : String)
  | raisedBase (stdout : String) (msg : String)
  deriving Repr, DecidableEq

/-- The result dict of `run_python_code` (python_exec_tool.py lines
36-47); the `error` key exists only in the error shape. -/
structure ExecResult where
  status : String
  code : String
  stdout : String
  error : Option String
  deriving Repr, DecidableEq

/-- `run_python_code` (python_exec_tool.py lines 15-47): the code is
dedented and stripped, executed, and the result dict is built from the
outcome; a `BaseException` outcome escapes the `except Exception`
handler and propagates (`Except.error`). -/
def run_python_code (dedent : String → String)
    (execBehavior : String → ExecOutcome) (code : String) :
    Except String ExecResult :=
  let dedented := (dedent code).trim
  match execBehavior dedented with
  | ExecOutcome.normal out =>
    Except.ok { status := "success", code := dedented, stdout := out,
                error := none }
  | ExecOutcome.raisedExc out tb =>
    Except.ok { status := "error", code := dedented, stdout := out,
                error := some tb }
  | ExecOutcome.raisedBase _ msg => Except.error msg

/-- C10 (amended): for every code string whose execution terminates
normally or raises an `Exception`-derived error, `run_python_code`
returns a dict and does not raise: on success the dict carries the
captured stdout and no `error` key, and on error it carries the
formatted traceback in `error` together with the stdout captured before
the failure.  A `BaseException` that is not an `Exception` (for example
`SystemExit` from `exit()`) is not caught by the `except Exception`
handler and propagates to the caller: see the counterexample to the
original claim, which asserted that no code string can make the function
raise. -/
theorem C10_exec_result_shape (dedent : String → String)
    (execBehavior : String → ExecOutcome) (code : String) :
    (∀ out, execBehavior ((dedent code).trim) = ExecOutcome.normal out →
      run_python_code dedent execBehavior code =
        Except.ok { status := "success", code := (dedent code).trim,
                    stdout := out, error := none }) ∧
    (∀ out tb,
      execBehavior ((dedent code).trim) = ExecOutcome.raisedExc out tb →
      run_python_code dedent execBehavior code =
        Except.ok { status := "error", code := (dedent code).trim,
                    stdout := out, error := some tb }) ∧
    (∀ out msg,
      execBehavior ((dedent code).trim) = ExecOutcome.raisedBase out msg →
      run_python_code dedent execBehavior code = Except.error msg) := by
  refine ⟨?_, ?_, ?_⟩
  · intro out h
    rw [run_python_code]
    rw [h]
  · intro out tb h
    rw [run_python_code]
    rw [h]
  · intro out msg h
    rw [run_python_code]
    rw [h]

/-- C10 witness: the amended theorem at a concrete code string whose
execution prints and terminates normally. -/
theorem C10_exec_result_shape_witness :
    run_python_code (fun s => s) (fun _ => ExecOutcome.normal "1\n")
      "print(1)" =
      Except.ok { status := "success", code := ("print(1)" : String).trim,
                  stdout := "1\n", error := none } :=
  (C10_exec_result_shape (fun s => s) (fun _ => ExecOutcome.normal "1\n")
    "print(1)").1 "1\n" rfl

/-- C10 counterexample: the handler at python_exec_tool.py line 35
catches only `Exception`, so the code string `"raise SystemExit"` (whose
execution raises the `BaseException` `SystemExit`) makes
`run_python_code` propagate the exception instead of returning a status
dict, contradicting the claim that no code string can make it raise. -/
theorem C10_counterexample :
    run_python_code (fun s => s)
      (fun _ => ExecOutcome.raisedBase "" "SystemExit") "raise SystemExit" =
      Except.error "SystemExit" := by
  rfl
